import Mathlib

/-!
Shallow embedding of the WRO Future Engineers randomization application
(`aplicacion.py`) and verification of its specification.

The embedding models the pure computational core of the program:
the geometry constants and the four per-section coordinate transforms,
the domain catalog (intersections, start zones, colors, the 32 obstacle
sets with the mandatory and required subsets), the open-round layout
generator `draw_layout`, and the obstacle-round constraint solver
`randomize_and_draw_layout_for_obstacle`.  Random draws of the Python
code (`choice`, `randint`, `sample`) are modelled by explicit parameters:
a theorem quantifying over those parameters covers every possible
execution of the corresponding code path.
-/

namespace WRO

/-! ## Geometry constants (module-level constants of `aplicacion.py`) -/

/-- `width = 3000`: the playing field is 3000 x 3000 pixels. -/
def width : Nat := 3000

/-- `height = width`. -/
def height : Nat := width

/-- `first_line = 400`: the first arc in a straight section. -/
def first_line : Nat := 400

/-- `second_line = first_line + 200`. -/
def second_line : Nat := first_line + 200

/-- `inner_border = second_line + 400`. -/
def inner_border : Nat := second_line + 400

/-- `left_position = inner_border`. -/
def left_position : Nat := inner_border

/-- `middle_position = width // 2`. -/
def middle_position : Nat := width / 2

/-- `right_position = width - inner_border`. -/
def right_position : Nat := width - inner_border

/-- `border = 10`: the thickness of the outer walls. -/
def border : Nat := 10

/-! ## The four per-section transforms (`on_north`, `on_south`, `on_west`,
`on_east`).

Each Python function assigns a color to the numpy slice
`img[rowLo:rowHi, colLo:colHi]`; we model the painted axis-aligned
rectangle by its four slice bounds, over `Int` (Python integers are
unbounded). -/

/-- An axis-aligned rectangle given by the numpy slice bounds
`img[rowLo:rowHi, colLo:colHi]` that a section transform paints. -/
structure Rect where
  rowLo : Int
  rowHi : Int
  colLo : Int
  colHi : Int
  deriving DecidableEq, Repr

/-- `on_north`: paints
`img[min(h1,h2)+border : max(h1,h2)+border, min(w1,w2)+border : max(w1,w2)+border]`. -/
def on_north (h1 w1 h2 w2 : Int) : Rect :=
  ⟨min h1 h2 + (border : Int), max h1 h2 + (border : Int),
   min w1 w2 + (border : Int), max w1 w2 + (border : Int)⟩

/-- `on_south`: paints
`img[height-max(h1,h2)+border : height-min(h1,h2)+border, width-max(w1,w2)+border : width-min(w1,w2)+border]`. -/
def on_south (h1 w1 h2 w2 : Int) : Rect :=
  ⟨(height : Int) - max h1 h2 + (border : Int), (height : Int) - min h1 h2 + (border : Int),
   (width : Int) - max w1 w2 + (border : Int), (width : Int) - min w1 w2 + (border : Int)⟩

/-- `on_west`: paints
`img[height-max(w1,w2)+border : height-min(w1,w2)+border, min(h1,h2)+border : max(h1,h2)+border]`. -/
def on_west (h1 w1 h2 w2 : Int) : Rect :=
  ⟨(height : Int) - max w1 w2 + (border : Int), (height : Int) - min w1 w2 + (border : Int),
   min h1 h2 + (border : Int), max h1 h2 + (border : Int)⟩

/-- `on_east`: paints
`img[min(w1,w2)+border : max(w1,w2)+border, width-max(h1,h2)+border : width-min(h1,h2)+border]`. -/
def on_east (h1 w1 h2 w2 : Int) : Rect :=
  ⟨min w1 w2 + (border : Int), max w1 w2 + (border : Int),
   (width : Int) - max h1 h2 + (border : Int), (width : Int) - min h1 h2 + (border : Int)⟩

/-- The canonical bounding rectangle of the input coordinates, before any
section transform (rows `[min h1 h2, max h1 h2]`, columns
`[min w1 w2, max w1 w2]`). -/
def canonicalRect (h1 w1 h2 w2 : Int) : Rect :=
  ⟨min h1 h2, max h1 h2, min w1 w2, max w1 w2⟩

/-- Translation of a rectangle by `d` in both axes. -/
def Rect.translate (r : Rect) (d : Int) : Rect :=
  ⟨r.rowLo + d, r.rowHi + d, r.colLo + d, r.colHi + d⟩

/-- Point mirroring of the whole image (which spans
`[0, height + 2*border] x [0, width + 2*border]` including the outer
walls) in both axes; interval endpoints swap. -/
def Rect.mirrorBoth (r : Rect) : Rect :=
  ⟨(height : Int) + 2 * (border : Int) - r.rowHi,
   (height : Int) + 2 * (border : Int) - r.rowLo,
   (width : Int) + 2 * (border : Int) - r.colHi,
   (width : Int) + 2 * (border : Int) - r.colLo⟩

/-! ## Enumerations of the domain catalog -/

/-- The four straight sections (class `Section`). -/
inductive Sect where
  | NORTH
  | SOUTH
  | WEST
  | EAST
  deriving DecidableEq, Repr

/-- Driving direction (class `Direction`). -/
inductive Direction where
  | CW
  | CCW
  deriving DecidableEq, Repr

/-- The 12 named intersection points of a straight section
(class `Intersection`). -/
inductive Intersection where
  | TopLeft
  | TopMiddle
  | TopRight
  | T4
  | X2
  | T3
  | T2
  | X1
  | T1
  | BottomLeft
  | BottomMiddle
  | BottomRight
  deriving DecidableEq, Repr

/-- The canonical coordinates of each intersection, as in the Python
enum values. -/
def Intersection.value : Intersection → Nat × Nat
  | .TopLeft => (0, left_position)
  | .TopMiddle => (0, middle_position)
  | .TopRight => (0, right_position)
  | .T4 => (first_line, left_position)
  | .X2 => (first_line, middle_position)
  | .T3 => (first_line, right_position)
  | .T2 => (second_line, left_position)
  | .X1 => (second_line, middle_position)
  | .T1 => (second_line, right_position)
  | .BottomLeft => (inner_border, left_position)
  | .BottomMiddle => (inner_border, middle_position)
  | .BottomRight => (inner_border, right_position)

/-- Obstacle colors (class `Color`). -/
inductive Color where
  | RED
  | GREEN
  | UNDEFINED
  deriving DecidableEq, Repr

/-- An obstacle: a position and a color (class `Obstacle`). -/
structure Obstacle where
  position : Intersection
  color : Color
  deriving DecidableEq, Repr

/-- `Obstacle.set_color`: functional counterpart of the mutating Python
method (returns the updated obstacle). -/
def Obstacle.set_color (o : Obstacle) (c : Color) : Obstacle :=
  { o with color := c }

/-- `Obstacle.is_red`. -/
def Obstacle.is_red (o : Obstacle) : Bool :=
  o.color = Color.RED

/-- `Obstacle.is_green`. -/
def Obstacle.is_green (o : Obstacle) : Bool :=
  o.color = Color.GREEN

/-- The six start zones (class `StartZone`). -/
inductive StartZone where
  | Z1
  | Z2
  | Z3
  | Z4
  | Z5
  | Z6
  deriving DecidableEq, Repr

/-- The diagonal pair of intersections bounding each start zone, as in
the Python enum values. -/
def StartZone.value : StartZone → Intersection × Intersection
  | .Z1 => (.X1, .BottomRight)
  | .Z2 => (.T2, .BottomMiddle)
  | .Z3 => (.X2, .T1)
  | .Z4 => (.T4, .X1)
  | .Z5 => (.TopMiddle, .T3)
  | .Z6 => (.TopLeft, .X2)

/-- `list(StartZone)`: the enum members in declaration order. -/
def allStartZones : List StartZone :=
  [.Z1, .Z2, .Z3, .Z4, .Z5, .Z6]

/-- The keys of the `forbidden_intersections_in_start_zone[direction]`
dictionary, in insertion order (only `Z3` and `Z4` appear). -/
def forbiddenStartZoneKeys : List StartZone :=
  [.Z3, .Z4]

/-- `forbidden_intersections_in_start_zone`: the intersections that would
lie directly ahead of the vehicle for the given direction and start
zone.  Zones other than `Z3`, `Z4` are absent from the dictionary
(modelled by the empty list). -/
def forbidden_intersections_in_start_zone
    (d : Direction) (z : StartZone) : List Intersection :=
  match d, z with
  | .CW, .Z3 => [.T1, .T3]
  | .CW, .Z4 => [.X1, .X2]
  | .CCW, .Z3 => [.X1, .X2]
  | .CCW, .Z4 => [.T2, .T4]
  | _, _ => []

/-- `forbidden_intersections_in_parking_section = [T3, T4, X2]`. -/
def forbidden_intersections_in_parking_section : List Intersection :=
  [.T3, .T4, .X2]

/-! ## The static obstacle catalog (`obstacles_sets`, 32 entries) -/

/-- The fixed, ordered catalog of 32 obstacle sets, exactly as in the
Python module-level list `obstacles_sets`. -/
def obstacles_sets : List (List Obstacle) :=
  [ [⟨.T1, .GREEN⟩],                       -- 0, Card 1
    [⟨.T1, .RED⟩],                         -- 1, Card 2
    [⟨.X1, .GREEN⟩],                       -- 2, Card 3
    [⟨.X1, .RED⟩],                         -- 3, Card 4
    [⟨.T2, .GREEN⟩],                       -- 4, Card 5
    [⟨.T2, .RED⟩],                         -- 5, Card 6
    [⟨.T3, .GREEN⟩],                       -- 6, Card 7
    [⟨.T3, .RED⟩],                         -- 7, Card 8
    [⟨.X2, .GREEN⟩],                       -- 8, Card 9
    [⟨.X2, .RED⟩],                         -- 9, Card 10
    [⟨.T4, .GREEN⟩],                       -- 10, Card 11
    [⟨.T4, .RED⟩],                         -- 11, Card 12
    [⟨.T3, .GREEN⟩, ⟨.T2, .GREEN⟩],        -- 12, Card 13
    [⟨.T3, .GREEN⟩, ⟨.T2, .RED⟩],          -- 13, Card 14/16
    [⟨.T3, .RED⟩, ⟨.T2, .GREEN⟩],          -- 14, Card 15/17
    [⟨.T3, .RED⟩, ⟨.T2, .RED⟩],            -- 15, Card 18
    [⟨.T1, .GREEN⟩, ⟨.T4, .GREEN⟩],        -- 16, Card 19
    [⟨.T1, .GREEN⟩, ⟨.T4, .RED⟩],          -- 17, Card 20/22
    [⟨.T1, .RED⟩, ⟨.T4, .GREEN⟩],          -- 18, Card 21/23
    [⟨.T1, .RED⟩, ⟨.T4, .RED⟩],            -- 19, Card 24
    [⟨.T1, .GREEN⟩, ⟨.T2, .GREEN⟩],        -- 20, Card 25
    [⟨.T1, .GREEN⟩, ⟨.T2, .RED⟩],          -- 21, Card 26
    [⟨.T1, .RED⟩, ⟨.T2, .GREEN⟩],          -- 22, Card 27
    [⟨.T1, .GREEN⟩, ⟨.T2, .RED⟩],          -- 23, Card 28
    [⟨.T1, .RED⟩, ⟨.T2, .GREEN⟩],          -- 24, Card 29
    [⟨.T1, .RED⟩, ⟨.T2, .RED⟩],            -- 25, Card 30
    [⟨.T3, .GREEN⟩, ⟨.T4, .GREEN⟩],        -- 26, Card 31
    [⟨.T3, .GREEN⟩, ⟨.T4, .RED⟩],          -- 27, Card 32
    [⟨.T3, .RED⟩, ⟨.T4, .GREEN⟩],          -- 28, Card 33
    [⟨.T3, .GREEN⟩, ⟨.T4, .RED⟩],          -- 29, Card 34
    [⟨.T3, .RED⟩, ⟨.T4, .GREEN⟩],          -- 30, Card 35
    [⟨.T3, .RED⟩, ⟨.T4, .RED⟩] ]           -- 31, Card 36

/-- `mandatory_obstacles_sets`: dictionary mapping a color to the index
of its mandatory obstacle set (an X2 single obstacle).  Lookup of an
undefined color is a Python `KeyError`, modelled by `none`. -/
def mandatory_obstacles_sets : Color → Option Nat
  | .GREEN => some 8
  | .RED => some 9
  | .UNDEFINED => none

/-- `required_obstacles_sets = [21, 22, 27, 28]`. -/
def required_obstacles_sets : List Nat :=
  [21, 22, 27, 28]

/-- The list `sections` built locally in `draw_layout` and
`randomize_and_draw_layout_for_obstacle`:
`[Section.NORTH, Section.WEST, Section.SOUTH, Section.EAST]`. -/
def sections : List Sect :=
  [.NORTH, .WEST, .SOUTH, .EAST]

/-! ## Inner walls and the open-round generator (`InnerWall`, `draw_layout`) -/

/-- The inner-wall configuration (class `InnerWall`): one boolean per side,
true when the wall on that side is pulled inward (closer to the outer
wall), plus the `fixed_center` flag set by the constructor. -/
structure InnerWall where
  north : Bool
  west : Bool
  south : Bool
  east : Bool
  fixed_center : Bool
  deriving DecidableEq, Repr

/-- The `InnerWall(sides)` constructor: each side flag is the membership
test of that section in `sides`; `fixed_center` is initialized to true. -/
def InnerWall.ofSides (sides : List Sect) : InnerWall :=
  ⟨sides.contains .NORTH, sides.contains .WEST,
   sides.contains .SOUTH, sides.contains .EAST, true⟩

/-- `InnerWall.on_side`: whether the wall is pulled inward on the given
side. -/
def InnerWall.on_side (w : InnerWall) : Sect → Bool
  | .NORTH => w.north
  | .WEST => w.west
  | .SOUTH => w.south
  | .EAST => w.east

/-- The local variable `allowed_zones` of `draw_layout`: the restricted
four-zone list when the inner wall of the starting section is pulled
inward, otherwise `list(StartZone)`. -/
def allowed_zones (inner_walls : InnerWall) (starting_section : Sect) :
    List StartZone :=
  if inner_walls.on_side starting_section then
    [.Z6, .Z5, .Z4, .Z3]
  else
    allStartZones

/-- The observable outcome of `draw_layout`: the chosen starting section
and zone, and the inner-wall configuration actually drawn on the image. -/
structure OpenLayout where
  starting_section : Sect
  starting_zone : StartZone
  drawn_walls : InnerWall
  deriving DecidableEq, Repr

/-- `draw_layout(direction, fixed)`, with the random draws made explicit:
`inner_walls_config` is the result of `sample(sections, randint(0, 4))`,
`starting_section` the result of `choice(sections)`, and `zone_choice`
the index drawn by `choice(allowed_zones)`.  Note that `allowed_zones`
is computed from the random `inner_walls` draw before the `fixed` branch
replaces the walls that get drawn. -/
def draw_layout (fixed : Bool) (inner_walls_config : List Sect)
    (starting_section : Sect) (zone_choice : Nat) : OpenLayout :=
  let inner_walls := InnerWall.ofSides inner_walls_config
  let allowed := allowed_zones inner_walls starting_section
  let starting_zone := allowed.getD zone_choice .Z1
  let drawn := if fixed then InnerWall.ofSides [] else inner_walls
  ⟨starting_section, starting_zone, drawn⟩

/-! ## The obstacle-round constraint solver
(`randomize_and_draw_layout_for_obstacle`)

The per-iteration computation over the four chosen catalog indices is
decomposed into the quantities the Python loop accumulates.  All pieces
are parameterized by the catalog `sets` (the module-level
`obstacles_sets` in the source); the solver only ever reads it. -/

/-- `obstacles_sets[i]` (the code only indexes with `0 <= i < 32`;
out-of-range reads, a Python `IndexError`, are modelled by `[]`). -/
def catalogSet (sets : List (List Obstacle)) (i : Nat) : List Obstacle :=
  sets.getD i []

/-- The value `forbidden_start_zones[i]` computed by the accumulation
loop: the dictionary-insertion-ordered list of zones `z` among the keys
`[Z3, Z4]` such that some obstacle of set `i` lies at an intersection of
`forbidden_intersections_in_start_zone[direction][z]`. -/
def forbidden_start_zones_of (d : Direction) (sets : List (List Obstacle))
    (i : Nat) : List StartZone :=
  forbiddenStartZoneKeys.filter fun z =>
    (catalogSet sets i).any fun o =>
      (forbidden_intersections_in_start_zone d z).contains o.position

/-- Whether set `i` was added to
`obstacles_set_conflicting_with_parking_section`: some obstacle of the
set lies at a parking-forbidden intersection. -/
def conflicts_with_parking (sets : List (List Obstacle)) (i : Nat) : Bool :=
  (catalogSet sets i).any fun o =>
    forbidden_intersections_in_parking_section.contains o.position

/-- `obstacles_amount`: total number of obstacles over the chosen sets. -/
def obstacles_amount (sets : List (List Obstacle)) (idxs : List Nat) : Nat :=
  (idxs.map fun i => (catalogSet sets i).length).sum

/-- `green_amount`: number of green obstacles over the chosen sets. -/
def green_amount (sets : List (List Obstacle)) (idxs : List Nat) : Nat :=
  (idxs.map fun i => ((catalogSet sets i).filter Obstacle.is_green).length).sum

/-- `red_amount`: number of red obstacles over the chosen sets. -/
def red_amount (sets : List (List Obstacle)) (idxs : List Nat) : Nat :=
  (idxs.map fun i => ((catalogSet sets i).filter Obstacle.is_red).length).sum

deriving instance DecidableEq for Except

/-- The color-tally inner loop of the solver: walks the obstacles of one
set, incrementing the green or red tally, and raises
`ValueError("Unknown obstacle color")` on any other color. -/
def tally_colors : List Obstacle → Nat → Nat → Except String (Nat × Nat)
  | [], g, r => .ok (g, r)
  | o :: rest, g, r =>
    if o.is_green then
      tally_colors rest (g + 1) r
    else if o.is_red then
      tally_colors rest g (r + 1)
    else
      .error "Unknown obstacle color"

/-- The keys remaining in the dictionary `forbidden_start_zones` after
the deletion loop removed every chosen set for which both possible start
zones are forbidden (`len(forbidden_start_zones[i]) == 2`). -/
def surviving_start_zone_keys (d : Direction) (sets : List (List Obstacle))
    (idxs : List Nat) : List Nat :=
  idxs.filter fun i => (forbidden_start_zones_of d sets i).length ≠ 2

/-- `obstacles_set_suitable_for_parking_section`:
`set(chosen_obstacles_sets_indices) - obstacles_set_conflicting_with_parking_section`. -/
def obstacles_set_suitable_for_parking_section
    (sets : List (List Obstacle)) (idxs : List Nat) : List Nat :=
  idxs.filter fun i => ¬ conflicts_with_parking sets i

/-- The `satisfied` acceptance test of the rejection-sampling loop,
exactly as computed at the end of one iteration. -/
def satisfied (d : Direction) (sets : List (List Obstacle))
    (idxs : List Nat) : Bool :=
  decide (((green_amount sets idxs : Int) - (red_amount sets idxs : Int)).natAbs ≤ 1) &&
  decide (obstacles_amount sets idxs > 4) &&
  decide ((surviving_start_zone_keys d sets idxs).length > 0) &&
  decide ((obstacles_set_suitable_for_parking_section sets idxs).length > 0)

/-- The dictionary `sections_for_obstacles_sets`, as an association list:
the chosen indices in insertion order, each paired with the section
popped from the back of the shuffled list `sample(sections, 4)`. -/
def sections_for_obstacles_sets (idxs : List Nat) (shuffled : List Sect) :
    List (Nat × Sect) :=
  idxs.zip shuffled.reverse

/-- Dictionary lookup in the `sections_for_obstacles_sets` association
list. -/
def section_assigned_to (assign : List (Nat × Sect)) (i : Nat) : Option Sect :=
  (assign.find? fun p => p.1 == i).map Prod.snd

/-- The candidate start zones for the chosen start-section set
(`set([Z3, Z4]) - forbidden_start_zones[obstacles_set_in_start_section]`). -/
def start_zone_candidates (d : Direction) (sets : List (List Obstacle))
    (i : Nat) : List StartZone :=
  forbiddenStartZoneKeys.filter fun z => z ∉ forbidden_start_zones_of d sets i

/-- The LayoutScheme of the obstacle round (the `scheme` dictionary). -/
structure ObstacleScheme where
  start_section : Sect
  start_zone : StartZone
  obstacles : List (Nat × Sect)
  parking_section : Sect
  deriving DecidableEq, Repr

/-- The post-acceptance part of `randomize_and_draw_layout_for_obstacle`
(source lines building the scheme): given the accepted chosen indices,
the shuffled sections, and the indices drawn by the three `choice` calls
(`start_pick` into the surviving start-zone keys, `park_pick` into the
parking-suitable sets, `zone_pick` into the start-zone candidates),
build the scheme.  A failing lookup (`choice` of an empty list, absent
dictionary key) is `none`. -/
def build_scheme (d : Direction) (sets : List (List Obstacle))
    (idxs : List Nat) (shuffled : List Sect)
    (start_pick park_pick zone_pick : Nat) : Option ObstacleScheme := do
  let assign := sections_for_obstacles_sets idxs shuffled
  let sIdx ← (surviving_start_zone_keys d sets idxs).get? start_pick
  let startSection ← section_assigned_to assign sIdx
  let pIdx ← (obstacles_set_suitable_for_parking_section sets idxs).get? park_pick
  let parkSection ← section_assigned_to assign pIdx
  let sz ← (start_zone_candidates d sets sIdx).get? zone_pick
  pure ⟨startSection, sz, assign, parkSection⟩

/-- The post-loop conditions established by the draw code of one
iteration (steps 1-3 of the algorithm): the mandatory index comes from
the dictionary lookup for a drawn color in `[GREEN, RED]`, the required
index from the required pool, and `os1`, `os2` from `randint(0, 31)`
re-drawn until distinct from the earlier picks. -/
def valid_draw (m r o1 o2 : Nat) : Prop :=
  (m = 8 ∨ m = 9) ∧
  r ∈ required_obstacles_sets ∧
  o1 < obstacles_sets.length ∧ o1 ≠ r ∧ o1 ≠ m ∧
  o2 < obstacles_sets.length ∧ o2 ≠ r ∧ o2 ≠ m ∧ o2 ≠ o1

instance (m r o1 o2 : Nat) : Decidable (valid_draw m r o1 o2) := by
  unfold valid_draw
  infer_instance

/-! ## The spec-side acceptance condition (for the refinement claim C1) -/

/-- Modelled from the spec's words (section 4.4 step 7 and section 8):
accept the draw iff `|green - red| <= 1`, the total obstacle count is
strictly greater than 4, at least one chosen set has a zone in
`{Z3, Z4}` that is not forbidden for it, and at least one chosen set
contains no obstacle at a parking-forbidden intersection.  This is the
definition to be compared with the code's `satisfied` test. -/
def accept_spec (d : Direction) (idxs : List Nat) : Prop :=
  ((green_amount obstacles_sets idxs : Int) -
      (red_amount obstacles_sets idxs : Int)).natAbs ≤ 1 ∧
  obstacles_amount obstacles_sets idxs > 4 ∧
  (∃ i ∈ idxs, ∃ z ∈ forbiddenStartZoneKeys,
    z ∉ forbidden_start_zones_of d obstacles_sets i) ∧
  (∃ i ∈ idxs, ∀ o ∈ catalogSet obstacles_sets i,
    o.position ∉ forbidden_intersections_in_parking_section)

/-! ## Catalog state threading (for the frame claim C10)

The Python catalog lives in module-level globals that the solver could
in principle mutate (every `Obstacle` exposes `set_color`).  We thread
the catalog state explicitly through each generation call and through a
sequence of calls, so that "the solver never mutates the catalog" is the
statement that the output state equals the input state. -/

/-- The mutable module-level state holding the domain catalog. -/
structure Catalog where
  obstacles_sets : List (List Obstacle)
  mandatory_obstacles_sets : Color → Option Nat
  required_obstacles_sets : List Nat

/-- The initial catalog state, as defined at module load. -/
def the_catalog : Catalog :=
  ⟨obstacles_sets, mandatory_obstacles_sets, required_obstacles_sets⟩

/-- The random draws consumed by one obstacle-round generation call. -/
structure GenInput where
  direction : Direction
  mandatory_set_color : Color
  required_pick : Nat
  os1 : Nat
  os2 : Nat
  shuffled : List Sect
  start_pick : Nat
  park_pick : Nat
  zone_pick : Nat

/-- One call of `randomize_and_draw_layout_for_obstacle` over the
catalog state: looks up the mandatory index for the drawn color and the
required index in the pool, evaluates the acceptance test and the scheme
construction over the chosen indices, and returns the (unchanged)
catalog state alongside.  Failed lookups yield `(false, none)`. -/
def generate_for_obstacle (cat : Catalog) (inp : GenInput) :
    (Bool × Option ObstacleScheme) × Catalog :=
  let res :=
    match cat.mandatory_obstacles_sets inp.mandatory_set_color,
        cat.required_obstacles_sets.get? inp.required_pick with
    | some m, some r =>
      let chosen := [m, r, inp.os1, inp.os2]
      (satisfied inp.direction cat.obstacles_sets chosen,
       build_scheme inp.direction cat.obstacles_sets chosen inp.shuffled
         inp.start_pick inp.park_pick inp.zone_pick)
    | _, _ => (false, none)
  (res, cat)

/-- A sequence of generation calls threading the catalog state. -/
def generate_many : Catalog → List GenInput →
    List (Bool × Option ObstacleScheme) × Catalog
  | cat, [] => ([], cat)
  | cat, inp :: rest =>
    let step := generate_for_obstacle cat inp
    let next := generate_many step.2 rest
    (step.1 :: next.1, next.2)

/-! ## Helper lemmas -/

/-- A filtered list is nonempty iff some element satisfies the
predicate. -/
theorem filter_length_pos {α : Type} (p : α → Bool) (l : List α) :
    0 < (l.filter p).length ↔ ∃ i ∈ l, p i := by
  simp [List.length_pos_iff_ne_nil, List.filter_eq_nil_iff]

/-- A chosen set survives the deletion loop (fewer than two forbidden
zones) iff one of the two dictionary keys `Z3`, `Z4` is not forbidden
for it. -/
theorem not_both_zones_iff (d : Direction) (sets : List (List Obstacle))
    (i : Nat) :
    (forbidden_start_zones_of d sets i).length ≠ 2 ↔
      ∃ z ∈ forbiddenStartZoneKeys,
        z ∉ forbidden_start_zones_of d sets i := by
  unfold forbidden_start_zones_of
  cases h3 : (catalogSet sets i).any (fun o =>
      (forbidden_intersections_in_start_zone d .Z3).contains o.position) <;>
  cases h4 : (catalogSet sets i).any (fun o =>
      (forbidden_intersections_in_start_zone d .Z4).contains o.position) <;>
    simp only [forbiddenStartZoneKeys, List.filter_cons, List.filter_nil,
      h3, h4, if_true, if_false] <;>
    simp

/-! ## Claim theorems -/

/-- **C9.** For every canonical rectangle `(h1, w1, h2, w2)`, each of the
four section transforms paints an axis-aligned rectangle whose side
magnitudes equal `|h2 - h1|` and `|w2 - w1|` (height/width roles swapped
for West and East); the North transform maps the canonical rectangle to
itself translated by the border offset, and the South transform is the
North rectangle mirrored in both axes, so un-mirroring South recovers
the North (hence, up to the border translation, the canonical)
rectangle. -/
theorem section_transforms_geometry (h1 w1 h2 w2 : Int) :
    ((on_north h1 w1 h2 w2).rowHi - (on_north h1 w1 h2 w2).rowLo = |h2 - h1| ∧
     (on_north h1 w1 h2 w2).colHi - (on_north h1 w1 h2 w2).colLo = |w2 - w1|) ∧
    ((on_south h1 w1 h2 w2).rowHi - (on_south h1 w1 h2 w2).rowLo = |h2 - h1| ∧
     (on_south h1 w1 h2 w2).colHi - (on_south h1 w1 h2 w2).colLo = |w2 - w1|) ∧
    ((on_west h1 w1 h2 w2).rowHi - (on_west h1 w1 h2 w2).rowLo = |w2 - w1| ∧
     (on_west h1 w1 h2 w2).colHi - (on_west h1 w1 h2 w2).colLo = |h2 - h1|) ∧
    ((on_east h1 w1 h2 w2).rowHi - (on_east h1 w1 h2 w2).rowLo = |w2 - w1| ∧
     (on_east h1 w1 h2 w2).colHi - (on_east h1 w1 h2 w2).colLo = |h2 - h1|) ∧
    on_north h1 w1 h2 w2 = (canonicalRect h1 w1 h2 w2).translate (border : Int) ∧
    (on_south h1 w1 h2 w2).mirrorBoth = on_north h1 w1 h2 w2 := by
  have hh := max_sub_min_eq_abs h1 h2
  have hw := max_sub_min_eq_abs w1 w2
  refine ⟨⟨?_, ?_⟩, ⟨?_, ?_⟩, ⟨?_, ?_⟩, ⟨?_, ?_⟩, ?_, ?_⟩ <;>
    simp only [on_north, on_south, on_west, on_east, canonicalRect,
      Rect.translate, Rect.mirrorBoth, Rect.mk.injEq] <;>
    omega

/-- **C7.** For the fixed 32-entry catalog and both directions, no
obstacle set forbids both `Z3` and `Z4` at once, so the branch that
deletes a key of `forbidden_start_zones` while iterating over the
dictionary (the `len(...) == 2` case) never executes: over catalog
indices the deletion loop is the identity. -/
theorem no_double_forbidden_start_zones (d : Direction) (i : Nat)
    (h : i < obstacles_sets.length) :
    (forbidden_start_zones_of d obstacles_sets i).length ≤ 1 ∧
    (∀ idxs : List Nat, (∀ j ∈ idxs, j < obstacles_sets.length) →
      surviving_start_zone_keys d obstacles_sets idxs = idxs) := by
  have key : ∀ (d2 : Direction), ((List.range 32).all fun j =>
      (forbidden_start_zones_of d2 obstacles_sets j).length ≤ 1) = true := by
    intro d2
    cases d2 <;> decide
  have hlen : obstacles_sets.length = 32 := by decide
  have main : ∀ (d2 : Direction) (j : Nat), j < obstacles_sets.length →
      (forbidden_start_zones_of d2 obstacles_sets j).length ≤ 1 := by
    intro d2 j hj
    have := List.all_eq_true.mp (key d2) j (List.mem_range.mpr (hlen ▸ hj))
    simpa using this
  refine ⟨main d i h, ?_⟩
  intro idxs hidxs
  unfold surviving_start_zone_keys
  refine List.filter_eq_self.mpr ?_
  intro j hj
  have := main d j (hidxs j hj)
  simp only [decide_eq_true_eq]
  omega

/-- **C7 witness.** The theorem applied to the green mandatory set
(index 8) in the clockwise direction, and to the four chosen indices of
a concrete accepted draw. -/
theorem no_double_forbidden_start_zones_witness :
    (forbidden_start_zones_of .CW obstacles_sets 8).length ≤ 1 ∧
    (∀ idxs : List Nat, (∀ j ∈ idxs, j < obstacles_sets.length) →
      surviving_start_zone_keys .CW obstacles_sets idxs = idxs) :=
  no_double_forbidden_start_zones .CW 8 (by decide)

/-- **C8.** The color-tally loop raises the invalid-catalog error iff
some tallied obstacle's color is neither Green nor Red; on every set of
the fixed catalog it succeeds, returning exactly the green and red
counts, and every obstacle is counted in exactly one of the two tallies
(the counts sum to the set's size). -/
theorem tally_colors_correct (s : List Obstacle) (g r : Nat) :
    ((∃ e, tally_colors s g r = Except.error e) ↔
      ∃ o ∈ s, o.color ≠ Color.GREEN ∧ o.color ≠ Color.RED) ∧
    (∀ i, i < obstacles_sets.length →
      tally_colors (catalogSet obstacles_sets i) 0 0 =
        Except.ok (((catalogSet obstacles_sets i).filter Obstacle.is_green).length,
          ((catalogSet obstacles_sets i).filter Obstacle.is_red).length) ∧
      ((catalogSet obstacles_sets i).filter Obstacle.is_green).length +
        ((catalogSet obstacles_sets i).filter Obstacle.is_red).length =
        (catalogSet obstacles_sets i).length) := by
  constructor
  · induction s generalizing g r with
    | nil => simp [tally_colors]
    | cons o rest ih =>
      cases hg : o.is_green with
      | true =>
        have hcol : o.color = Color.GREEN := by
          simpa [Obstacle.is_green] using hg
        simp [tally_colors, hg, ih, hcol]
      | false =>
        cases hr : o.is_red with
        | true =>
          have hcol : o.color = Color.RED := by
            simpa [Obstacle.is_red] using hr
          simp [tally_colors, hg, hr, ih, hcol]
        | false =>
          have hcg : ¬ o.color = Color.GREEN := by
            simpa [Obstacle.is_green] using hg
          have hcr : ¬ o.color = Color.RED := by
            simpa [Obstacle.is_red] using hr
          simp [tally_colors, hg, hr]
          exact Or.inl ⟨hcg, hcr⟩
  · have key : ((List.range 32).all fun i => decide
        ((tally_colors (catalogSet obstacles_sets i) 0 0 =
          Except.ok (((catalogSet obstacles_sets i).filter Obstacle.is_green).length,
            ((catalogSet obstacles_sets i).filter Obstacle.is_red).length)) ∧
        ((catalogSet obstacles_sets i).filter Obstacle.is_green).length +
          ((catalogSet obstacles_sets i).filter Obstacle.is_red).length =
          (catalogSet obstacles_sets i).length)) = true := by
      decide
    intro i hi
    have hlen : obstacles_sets.length = 32 := by decide
    have hi32 : i ∈ List.range 32 := List.mem_range.mpr (hlen ▸ hi)
    simpa using List.all_eq_true.mp key i hi32

/-- **C8 witness.** The theorem applied to a one-obstacle list with the
undefined color (error raised) and, for the catalog part, to set 12
(two green obstacles, tallied `(2, 0)`). -/
theorem tally_colors_correct_witness :
    ((∃ e, tally_colors [⟨.X1, .UNDEFINED⟩] 0 0 = Except.error e) ↔
      ∃ o ∈ [(⟨.X1, .UNDEFINED⟩ : Obstacle)],
        o.color ≠ Color.GREEN ∧ o.color ≠ Color.RED) ∧
    (tally_colors (catalogSet obstacles_sets 12) 0 0 =
      Except.ok (((catalogSet obstacles_sets 12).filter Obstacle.is_green).length,
        ((catalogSet obstacles_sets 12).filter Obstacle.is_red).length) ∧
    ((catalogSet obstacles_sets 12).filter Obstacle.is_green).length +
      ((catalogSet obstacles_sets 12).filter Obstacle.is_red).length =
      (catalogSet obstacles_sets 12).length) :=
  ⟨(tally_colors_correct [⟨.X1, .UNDEFINED⟩] 0 0).1,
   (tally_colors_correct [] 0 0).2 12 (by decide)⟩

/-- **C1.** One iteration of the rejection loop accepts its draw (the
`satisfied` flag becomes true, exiting the loop and using the draw to
build a layout) iff the four spec-level predicates hold for the chosen
sets: `|green - red| <= 1`, the total obstacle count exceeds 4, at least
one chosen set retains a usable start zone in `{Z3, Z4}`, and at least
one chosen set contains no parking-forbidden intersection.  Hence every
accepted scheme satisfies all four predicates. -/
theorem satisfied_iff_accept_spec (d : Direction) (idxs : List Nat) :
    satisfied d obstacles_sets idxs = true ↔ accept_spec d idxs := by
  have hstart : (0 < (surviving_start_zone_keys d obstacles_sets idxs).length) ↔
      ∃ i ∈ idxs, ∃ z ∈ forbiddenStartZoneKeys,
        z ∉ forbidden_start_zones_of d obstacles_sets i := by
    unfold surviving_start_zone_keys
    rw [filter_length_pos]
    refine exists_congr fun i => and_congr_right fun _ => ?_
    rw [decide_eq_true_eq]
    exact not_both_zones_iff d obstacles_sets i
  have hpark : (0 < (obstacles_set_suitable_for_parking_section obstacles_sets idxs).length) ↔
      ∃ i ∈ idxs, ∀ o ∈ catalogSet obstacles_sets i,
        o.position ∉ forbidden_intersections_in_parking_section := by
    unfold obstacles_set_suitable_for_parking_section
    rw [filter_length_pos]
    refine exists_congr fun i => and_congr_right fun _ => ?_
    unfold conflicts_with_parking
    simp
  unfold satisfied accept_spec
  simp only [Bool.and_eq_true, decide_eq_true_eq, gt_iff_lt]
  constructor
  · rintro ⟨⟨⟨hc1, hc2⟩, hc3⟩, hc4⟩
    exact ⟨hc1, hc2, hstart.mp hc3, hpark.mp hc4⟩
  · rintro ⟨hc1, hc2, hc3, hc4⟩
    exact ⟨⟨⟨hc1, hc2⟩, hstart.mpr hc3⟩, hpark.mpr hc4⟩

/-- **C2.** In every layout produced by the obstacle-round generator,
the 4 chosen catalog indices (mandatory, required, os1, os2) are
pairwise distinct, and the assignment of sections to chosen indices is a
bijection onto the 4 distinct sections: its keys are exactly the chosen
indices, its values are pairwise distinct, and every section occurs. -/
theorem chosen_sections_bijection (m r o1 o2 : Nat) (shuffled : List Sect)
    (hd : valid_draw m r o1 o2) (hs : shuffled.Perm sections) :
    [m, r, o1, o2].Nodup ∧
    (sections_for_obstacles_sets [m, r, o1, o2] shuffled).map Prod.fst =
      [m, r, o1, o2] ∧
    ((sections_for_obstacles_sets [m, r, o1, o2] shuffled).map Prod.snd).Nodup ∧
    ∀ s : Sect,
      s ∈ (sections_for_obstacles_sets [m, r, o1, o2] shuffled).map Prod.snd := by
  obtain ⟨hm, hr, ho1, ho1r, ho1m, ho2, ho2r, ho2m, ho2o1⟩ := hd
  have hrval : r = 21 ∨ r = 22 ∨ r = 27 ∨ r = 28 := by
    simpa [required_obstacles_sets] using hr
  have hlen : shuffled.length = 4 := by
    simpa [sections] using hs.length_eq
  have hnodup : [m, r, o1, o2].Nodup := by
    simp only [List.nodup_cons, List.mem_cons, List.mem_singleton,
      List.not_mem_nil, not_false_iff, List.nodup_nil, and_true,
      List.nodup_singleton, not_or]
    omega
  have hmapfst : (sections_for_obstacles_sets [m, r, o1, o2] shuffled).map
      Prod.fst = [m, r, o1, o2] := by
    unfold sections_for_obstacles_sets
    exact List.map_fst_zip _ _ (by simp [hlen])
  have hmapsnd : (sections_for_obstacles_sets [m, r, o1, o2] shuffled).map
      Prod.snd = shuffled.reverse := by
    unfold sections_for_obstacles_sets
    exact List.map_snd_zip _ _ (by simp [hlen])
  refine ⟨hnodup, hmapfst, ?_, ?_⟩
  · rw [hmapsnd, List.nodup_reverse]
    exact hs.nodup_iff.mpr (by decide)
  · intro s
    rw [hmapsnd, List.mem_reverse, hs.mem_iff]
    cases s <;> simp [sections]

/-- **C2 witness.** The bijection theorem at the concrete accepted draw
`[8, 21, 0, 15]` with the identity shuffle. -/
theorem chosen_sections_bijection_witness :
    [8, 21, 0, 15].Nodup ∧
    (sections_for_obstacles_sets [8, 21, 0, 15] sections).map Prod.fst =
      [8, 21, 0, 15] ∧
    ((sections_for_obstacles_sets [8, 21, 0, 15] sections).map Prod.snd).Nodup ∧
    ∀ s : Sect,
      s ∈ (sections_for_obstacles_sets [8, 21, 0, 15] sections).map Prod.snd :=
  chosen_sections_bijection 8 21 0 15 sections (by decide) (List.Perm.refl _)

/-- **C3 counterexample.** The claim that the fixed-center variant
always selects the start zone from the unrestricted set of all 6 zones
is false: with the random wall draw `[NORTH]` and start section `NORTH`,
`draw_layout(..., fixed=True)` draws the all-default walls but selects
the start zone from the restricted list `[Z6, Z5, Z4, Z3]`, which is not
`list(StartZone)`. -/
theorem fixed_center_counterexample :
    (draw_layout true [Sect.NORTH] Sect.NORTH 0).drawn_walls =
      InnerWall.ofSides [] ∧
    allowed_zones (InnerWall.ofSides [Sect.NORTH]) Sect.NORTH =
      [StartZone.Z6, StartZone.Z5, StartZone.Z4, StartZone.Z3] ∧
    allowed_zones (InnerWall.ofSides [Sect.NORTH]) Sect.NORTH ≠
      allStartZones ∧
    (draw_layout true [Sect.NORTH] Sect.NORTH 0).starting_zone =
      StartZone.Z6 := by
  decide

/-- **C3 (amended).** The fixed-center variant draws the inner walls in
the all-default configuration regardless of the random wall draw; the
start zone, however, is selected from the same `allowed_zones` list as
the non-fixed variant, computed from the discarded random wall draw: the
restricted list `[Z6, Z5, Z4, Z3]` when that draw pulls the start
section's wall inward, and all 6 zones otherwise. -/
theorem fixed_center_walls_default (cfg : List Sect) (s : Sect) (i : Nat)
    (h : i < (allowed_zones (InnerWall.ofSides cfg) s).length) :
    (draw_layout true cfg s i).drawn_walls = InnerWall.ofSides [] ∧
    (draw_layout true cfg s i).starting_zone =
      (draw_layout false cfg s i).starting_zone ∧
    ((InnerWall.ofSides cfg).on_side s = true →
      (draw_layout true cfg s i).starting_zone ∈
        ([.Z6, .Z5, .Z4, .Z3] : List StartZone)) ∧
    ((InnerWall.ofSides cfg).on_side s = false →
      allowed_zones (InnerWall.ofSides cfg) s = allStartZones) := by
  refine ⟨rfl, rfl, ?_, ?_⟩
  · intro hw
    have h4 : i < 4 := by simpa [allowed_zones, hw] using h
    simp only [draw_layout, allowed_zones, hw, if_true]
    interval_cases i <;> decide
  · intro hw
    simp [allowed_zones, hw]

/-- **C3 witness.** The amended theorem at the counterexample input. -/
theorem fixed_center_walls_default_witness :
    (draw_layout true [Sect.NORTH] Sect.NORTH 0).drawn_walls =
      InnerWall.ofSides [] ∧
    (draw_layout true [Sect.NORTH] Sect.NORTH 0).starting_zone =
      (draw_layout false [Sect.NORTH] Sect.NORTH 0).starting_zone ∧
    ((InnerWall.ofSides [Sect.NORTH]).on_side Sect.NORTH = true →
      (draw_layout true [Sect.NORTH] Sect.NORTH 0).starting_zone ∈
        ([.Z6, .Z5, .Z4, .Z3] : List StartZone)) ∧
    ((InnerWall.ofSides [Sect.NORTH]).on_side Sect.NORTH = false →
      allowed_zones (InnerWall.ofSides [Sect.NORTH]) Sect.NORTH =
        allStartZones) :=
  fixed_center_walls_default [Sect.NORTH] Sect.NORTH 0 (by decide)

/-- **C4.** In the open-round (non-fixed) generator, if the randomly
drawn inner walls pull the wall of the chosen start section inward, the
start zone is chosen from exactly `[Z6, Z5, Z4, Z3]` (in particular it
is never `Z1` or `Z2`); otherwise the allowed list is all 6 zones. -/
theorem open_round_zone_restriction (cfg : List Sect) (s : Sect) (i : Nat)
    (h : i < (allowed_zones (InnerWall.ofSides cfg) s).length) :
    ((InnerWall.ofSides cfg).on_side s = true →
      (draw_layout false cfg s i).starting_zone ∈
        ([.Z6, .Z5, .Z4, .Z3] : List StartZone) ∧
      (draw_layout false cfg s i).starting_zone ≠ StartZone.Z1 ∧
      (draw_layout false cfg s i).starting_zone ≠ StartZone.Z2) ∧
    ((InnerWall.ofSides cfg).on_side s = false →
      allowed_zones (InnerWall.ofSides cfg) s = allStartZones) := by
  constructor
  · intro hw
    have h4 : i < 4 := by simpa [allowed_zones, hw] using h
    simp only [draw_layout, allowed_zones, hw, if_true]
    interval_cases i <;> decide
  · intro hw
    simp [allowed_zones, hw]

/-- **C4 witness.** The restriction theorem for the West section with
its wall pulled inward (the spec's concrete scenario: the start zone is
never `Z1` or `Z2` there). -/
theorem open_round_zone_restriction_witness :
    ((InnerWall.ofSides [Sect.WEST]).on_side Sect.WEST = true →
      (draw_layout false [Sect.WEST] Sect.WEST 0).starting_zone ∈
        ([.Z6, .Z5, .Z4, .Z3] : List StartZone) ∧
      (draw_layout false [Sect.WEST] Sect.WEST 0).starting_zone ≠ StartZone.Z1 ∧
      (draw_layout false [Sect.WEST] Sect.WEST 0).starting_zone ≠ StartZone.Z2) ∧
    ((InnerWall.ofSides [Sect.WEST]).on_side Sect.WEST = false →
      allowed_zones (InnerWall.ofSides [Sect.WEST]) Sect.WEST = allStartZones) :=
  open_round_zone_restriction [Sect.WEST] Sect.WEST 0 (by decide)

/-- **C5.** A chosen set is parking-eligible iff it is one of the chosen
sets and contains no obstacle at a parking-forbidden intersection
(`T3`, `T4`, `X2`); and in every accepted layout the parking section is
the section assigned to a parking-eligible chosen set, whose obstacle
set therefore contains no obstacle at `T3`, `T4` or `X2`. -/
theorem parking_section_eligible (d : Direction) (idxs : List Nat) (p : Nat)
    (shuffled : List Sect) (sp pp zp : Nat) (sch : ObstacleScheme) :
    (p ∈ obstacles_set_suitable_for_parking_section obstacles_sets idxs ↔
      p ∈ idxs ∧ ∀ o ∈ catalogSet obstacles_sets p,
        o.position ∉ forbidden_intersections_in_parking_section) ∧
    (build_scheme d obstacles_sets idxs shuffled sp pp zp = some sch →
      ∃ q ∈ obstacles_set_suitable_for_parking_section obstacles_sets idxs,
        section_assigned_to (sections_for_obstacles_sets idxs shuffled) q =
          some sch.parking_section ∧
        ∀ o ∈ catalogSet obstacles_sets q,
          o.position ∉ forbidden_intersections_in_parking_section) := by
  have hchar : ∀ j : Nat,
      j ∈ obstacles_set_suitable_for_parking_section obstacles_sets idxs ↔
        j ∈ idxs ∧ ∀ o ∈ catalogSet obstacles_sets j,
          o.position ∉ forbidden_intersections_in_parking_section := by
    intro j
    unfold obstacles_set_suitable_for_parking_section conflicts_with_parking
    simp [List.mem_filter]
  refine ⟨hchar p, ?_⟩
  intro hb
  simp only [build_scheme, bind, Option.bind_eq_some, Option.pure_def,
    Option.some.injEq] at hb
  obtain ⟨sIdx, hsget, startSection, hssec, pIdx, hpget, parkSection, hpsec,
    sz, hzget, hsch⟩ := hb
  refine ⟨pIdx, List.get?_mem hpget, ?_, ((hchar pIdx).mp
    (List.get?_mem hpget)).2⟩
  rw [← hsch]
  exact hpsec

/-- **C5 witness.** The eligibility theorem at the concrete accepted
draw `[8, 21, 0, 15]` (clockwise, identity shuffle, first picks): the
parking set is 21 and the parking section is South. -/
theorem parking_section_eligible_witness :
    ∃ q ∈ obstacles_set_suitable_for_parking_section obstacles_sets
        [8, 21, 0, 15],
      section_assigned_to (sections_for_obstacles_sets [8, 21, 0, 15] sections)
          q =
        some (⟨Sect.EAST, StartZone.Z3,
          sections_for_obstacles_sets [8, 21, 0, 15] sections,
          Sect.SOUTH⟩ : ObstacleScheme).parking_section ∧
      ∀ o ∈ catalogSet obstacles_sets q,
        o.position ∉ forbidden_intersections_in_parking_section :=
  (parking_section_eligible .CW [8, 21, 0, 15] 21 sections 0 0 0
    ⟨Sect.EAST, StartZone.Z3,
      sections_for_obstacles_sets [8, 21, 0, 15] sections, Sect.SOUTH⟩).2
    (by decide)

/-- **C6.** In every accepted layout the start section is the section
assigned to a chosen set that survived the start-zone deletion (so it
has at least one non-forbidden zone among `Z3`, `Z4`), and the start
zone is one of `Z3`, `Z4` and is not forbidden for that set under the
given direction. -/
theorem start_zone_valid (d : Direction) (idxs : List Nat)
    (shuffled : List Sect) (sp pp zp : Nat) (sch : ObstacleScheme)
    (hb : build_scheme d obstacles_sets idxs shuffled sp pp zp = some sch) :
    ∃ q ∈ surviving_start_zone_keys d obstacles_sets idxs,
      q ∈ idxs ∧
      section_assigned_to (sections_for_obstacles_sets idxs shuffled) q =
        some sch.start_section ∧
      (∃ z ∈ forbiddenStartZoneKeys,
        z ∉ forbidden_start_zones_of d obstacles_sets q) ∧
      sch.start_zone ∈ forbiddenStartZoneKeys ∧
      sch.start_zone ∉ forbidden_start_zones_of d obstacles_sets q := by
  simp only [build_scheme, bind, Option.bind_eq_some, Option.pure_def,
    Option.some.injEq] at hb
  obtain ⟨sIdx, hsget, startSection, hssec, pIdx, hpget, parkSection, hpsec,
    sz, hzget, hsch⟩ := hb
  have hmem : sIdx ∈ surviving_start_zone_keys d obstacles_sets idxs :=
    List.get?_mem hsget
  have hfil := List.mem_filter.mp hmem
  have hzmem := List.mem_filter.mp (List.get?_mem hzget)
  refine ⟨sIdx, hmem, hfil.1, ?_, ?_, ?_, ?_⟩
  · rw [← hsch]
    exact hssec
  · exact (not_both_zones_iff d obstacles_sets sIdx).mp
      (by simpa using hfil.2)
  · rw [← hsch]
    exact hzmem.1
  · rw [← hsch]
    simpa using hzmem.2

/-- **C6 witness.** The start-zone theorem at the concrete accepted draw
`[8, 21, 0, 15]` (clockwise, identity shuffle, first picks): the start
set is 8, the start section East, the start zone `Z3`. -/
theorem start_zone_valid_witness :
    ∃ q ∈ surviving_start_zone_keys .CW obstacles_sets [8, 21, 0, 15],
      q ∈ [8, 21, 0, 15] ∧
      section_assigned_to (sections_for_obstacles_sets [8, 21, 0, 15] sections)
          q =
        some (⟨Sect.EAST, StartZone.Z3,
          sections_for_obstacles_sets [8, 21, 0, 15] sections,
          Sect.SOUTH⟩ : ObstacleScheme).start_section ∧
      (∃ z ∈ forbiddenStartZoneKeys,
        z ∉ forbidden_start_zones_of .CW obstacles_sets q) ∧
      (⟨Sect.EAST, StartZone.Z3,
        sections_for_obstacles_sets [8, 21, 0, 15] sections,
        Sect.SOUTH⟩ : ObstacleScheme).start_zone ∈ forbiddenStartZoneKeys ∧
      (⟨Sect.EAST, StartZone.Z3,
        sections_for_obstacles_sets [8, 21, 0, 15] sections,
        Sect.SOUTH⟩ : ObstacleScheme).start_zone ∉
        forbidden_start_zones_of .CW obstacles_sets q :=
  start_zone_valid .CW [8, 21, 0, 15] sections 0 0 0
    ⟨Sect.EAST, StartZone.Z3,
      sections_for_obstacles_sets [8, 21, 0, 15] sections, Sect.SOUTH⟩
    (by decide)

/-- **C10.** The obstacle-round solver never mutates the domain catalog:
after any number of generation calls threaded through the catalog state,
the state is unchanged, and in particular `obstacles_sets`,
`mandatory_obstacles_sets` and `required_obstacles_sets` retain their
original values (original obstacle positions, colors and lengths). -/
theorem catalog_never_mutated (inputs : List GenInput) (cat : Catalog) :
    (generate_many cat inputs).2 = cat ∧
    (generate_many the_catalog inputs).2.obstacles_sets = obstacles_sets ∧
    (∀ c, (generate_many the_catalog inputs).2.mandatory_obstacles_sets c =
      mandatory_obstacles_sets c) ∧
    (generate_many the_catalog inputs).2.required_obstacles_sets =
      required_obstacles_sets := by
  have key : ∀ (l : List GenInput) (c : Catalog), (generate_many c l).2 = c := by
    intro l
    induction l with
    | nil => intro c; rfl
    | cons a t ih =>
      intro c
      exact (ih ((generate_for_obstacle c a).2)).trans rfl
  refine ⟨key inputs cat, ?_, ?_, ?_⟩
  · rw [key inputs the_catalog]
    rfl
  · intro c
    rw [key inputs the_catalog]
    rfl
  · rw [key inputs the_catalog]
    rfl

end WRO
